import Mathlib

/-!
Shallow embedding of the task-management backend
(Pritam-deb/scriptassist-nestjs-exercise): the TasksService write/read
operations of src/modules/tasks/tasks.service.ts (the transactional revision,
lines 154-349) and the TasksController handlers of the controller file.

The store is the ordered task table, the queue is the sequence of durably
enqueued task-status-update events. Publisher failure is injected through an
explicit Bool (single publish) or a Nat-indexed schedule (publish loop); the
BullMQ queue lives outside the database transaction, so a rollback restores
the store but never un-enqueues an already accepted event.
-/

namespace Scriptassist

/-- Modelled from the spec: task lifecycle stage (spec section 3 and
GLOSSARY); the enum file src/modules/tasks/enums/task-status.enum.ts is not
under src. -/
inductive TaskStatus where
  | PENDING
  | IN_PROGRESS
  | COMPLETED
  deriving DecidableEq

/-- Modelled from the spec: task importance tier (spec section 3 and
GLOSSARY); the enum file src/modules/tasks/enums/task-priority.enum.ts is not
under src. -/
inductive TaskPriority where
  | LOW
  | MEDIUM
  | HIGH
  deriving DecidableEq

/-- Modelled from the spec: the Task entity (spec section 3); the entity file
src/modules/tasks/entities/task.entity.ts is not under src. Timestamps are
Nat instants; the user relation is kept as the owning user id. -/
structure Task where
  id : String
  title : String
  description : Option String
  status : TaskStatus
  priority : TaskPriority
  dueDate : Option Nat
  createdAt : Nat
  userId : String
  deriving DecidableEq

/-- Payload of a taskQueue.add call with job name task-status-update
(tasks.service.ts lines 162-165). -/
structure StatusEvent where
  taskId : String
  status : TaskStatus
  deriving DecidableEq

/-- Global state of the embedding: the task table in insertion order, and the
sequence of durably enqueued status-update events. -/
structure SysState where
  store : List Task
  queue : List StatusEvent
  deriving DecidableEq

/-- Errors a service call can surface: NotFoundException (tasks.service.ts
line 247) or a throw from a failed taskQueue.add call. -/
inductive SvcError where
  | notFound
  | publishFailure
  deriving DecidableEq

/-- Modelled from the spec: create input (dto/create-task.dto.ts is not under
src). Status is optional; a task created without one gets the PENDING default
of spec section 3. -/
structure CreateTaskDto where
  title : String
  description : Option String
  status : Option TaskStatus
  priority : TaskPriority
  dueDate : Option Nat
  userId : String

/-- Modelled from the spec: update input (dto/update-task.dto.ts is not under
src). Its fields are the five the field-by-field revision of update reads at
tasks.service.ts lines 96-100: title, description, status, priority, dueDate.
A field holding none is absent from the request body. -/
structure UpdateTaskDto where
  title : Option String
  description : Option String
  status : Option TaskStatus
  priority : Option TaskPriority
  dueDate : Option Nat

/-- repository.findOne on the id criteria: first row whose primary key
matches. -/
def findTask (store : List Task) (id : String) : Option Task :=
  store.find? (fun t => t.id == id)

/-- TasksService.create (tasks.service.ts lines 154-176): inside one
transaction, save the new task, enqueue one task-status-update event with the
saved id and status, commit; a throw from the enqueue rolls the transaction
back and is rethrown, and the failed enqueue leaves nothing on the queue.
The store assigns newId and now; pubFail says whether the single
taskQueue.add call fails. -/
def create (st : SysState) (dto : CreateTaskDto) (newId : String) (now : Nat)
    (pubFail : Bool) : SysState × Except SvcError Task :=
  let task : Task :=
    { id := newId, title := dto.title, description := dto.description,
      status := dto.status.getD TaskStatus.PENDING, priority := dto.priority,
      dueDate := dto.dueDate, createdAt := now, userId := dto.userId }
  if pubFail then
    (st, Except.error SvcError.publishFailure)
  else
    ({ store := st.store ++ [task],
       queue := st.queue ++ [{ taskId := task.id, status := task.status }] },
     Except.ok task)

/-- Object.assign(task, updateTaskDto) (tasks.service.ts line 267): every key
present on the dto overwrites the task field, every absent key leaves the
task field untouched; the dto carries no id, createdAt or userId key. -/
def applyUpdate (t : Task) (dto : UpdateTaskDto) : Task :=
  { t with
    title := dto.title.getD t.title
    description :=
      match dto.description with
      | some d => some d
      | none => t.description
    status := dto.status.getD t.status
    priority := dto.priority.getD t.priority
    dueDate :=
      match dto.dueDate with
      | some d => some d
      | none => t.dueDate }

/-- queryRunner.manager.save of an already persisted row: the row with the
matching primary key is replaced, every other row is untouched. -/
def saveTask (store : List Task) (t : Task) : List Task :=
  store.map (fun u => if u.id == t.id then t else u)

/-- TasksService.update (tasks.service.ts lines 252-286): inside one
transaction, load the task (NotFoundException if absent), remember the
original status, Object.assign the dto onto it, save; if the status changed,
enqueue one task-status-update event; commit. Any throw, including a failed
enqueue, rolls the transaction back and is rethrown. -/
def update (st : SysState) (id : String) (dto : UpdateTaskDto)
    (pubFail : Bool) : SysState × Except SvcError Task :=
  match findTask st.store id with
  | none => (st, Except.error SvcError.notFound)
  | some task =>
    let updatedTask := applyUpdate task dto
    if task.status ≠ updatedTask.status then
      if pubFail then
        (st, Except.error SvcError.publishFailure)
      else
        ({ store := saveTask st.store updatedTask,
           queue := st.queue ++
             [{ taskId := updatedTask.id, status := updatedTask.status }] },
         Except.ok updatedTask)
    else
      ({ store := saveTask st.store updatedTask, queue := st.queue },
       Except.ok updatedTask)

/-- queryRunner.manager.update(Task, ids, status) (tasks.service.ts line
293): set the status on every row whose id is among ids, leave the rest. -/
def applyBulkStatus (store : List Task) (ids : List String)
    (status : TaskStatus) : List Task :=
  store.map (fun t => if ids.contains t.id then { t with status := status } else t)

/-- The re-read queryRunner.manager.find with id In ids (tasks.service.ts
lines 295-298), executed inside the same transaction after the bulk status
write: the already updated rows whose id is among ids, in table order. -/
def bulkTargets (store : List Task) (ids : List String)
    (status : TaskStatus) : List Task :=
  (applyBulkStatus store ids status).filter (fun t => ids.contains t.id)

/-- TasksService.bulkUpdateStatus (tasks.service.ts lines 288-316): inside
one transaction, set the status on all ids, re-read the matching rows, then
enqueue one task-status-update event per row in order; the first failed
enqueue rolls the transaction back (events already accepted by the queue
stay, the queue lives outside the store transaction) and is rethrown.
pubFail k says whether the k-th taskQueue.add call of the loop fails. -/
def bulkUpdateStatus (st : SysState) (ids : List String) (status : TaskStatus)
    (pubFail : Nat → Bool) : SysState × Except SvcError (List Task) :=
  match (List.range (bulkTargets st.store ids status).length).find? pubFail with
  | some k =>
    ({ store := st.store,
       queue := st.queue ++ ((bulkTargets st.store ids status).take k).map
         (fun t => { taskId := t.id, status := t.status }) },
     Except.error SvcError.publishFailure)
  | none =>
    ({ store := applyBulkStatus st.store ids status,
       queue := st.queue ++ (bulkTargets st.store ids status).map
         (fun t => { taskId := t.id, status := t.status }) },
     Except.ok (bulkTargets st.store ids status))

/-- TasksService.remove (tasks.service.ts lines 318-320):
tasksRepository.delete on the id criteria; zero rows affected when the id is
absent, and no error is reported either way. -/
def remove (st : SysState) (id : String) : SysState × Except SvcError Unit :=
  ({ st with store := st.store.filter (fun t => !(t.id == id)) },
   Except.ok ())

/-- TasksService.bulkDelete (tasks.service.ts lines 322-336): delete every
row whose id is among ids inside one transaction; no event is enqueued. -/
def bulkDelete (st : SysState) (ids : List String) :
    SysState × Except SvcError Unit :=
  ({ st with store := st.store.filter (fun t => !(ids.contains t.id)) },
   Except.ok ())

/-- TaskFilterDto (src/unnamed/part_000 lines 6-36): all fields optional;
dates are instants here. The userId field exists on the dto but findAll does
not read it, taking the owner id as a separate argument instead. -/
structure TaskFilterDto where
  status : Option TaskStatus
  priority : Option TaskPriority
  search : Option String
  fromDate : Option Nat
  toDate : Option Nat
  userId : Option String

/-- Bool test that pat is a leading segment of hay, on character lists. -/
def leadsWith : List Char → List Char → Bool
  | [], _ => true
  | _ :: _, [] => false
  | a :: as, b :: bs => a == b && leadsWith as bs

/-- Bool test that pat occurs contiguously somewhere inside hay. -/
def occursIn (pat : List Char) : List Char → Bool
  | [] => pat.isEmpty
  | b :: bs => leadsWith pat (b :: bs) || occursIn pat bs

/-- SQL ILIKE with a wildcard on both sides (tasks.service.ts line 219):
case-insensitive containment of pat in hay. -/
def ilike (hay pat : String) : Bool :=
  occursIn pat.toLower.toList hay.toLower.toList

/-- The conjunction of where clauses findAll builds (tasks.service.ts lines
195-222): owner match, then optional status, priority, createdAt range, and
title-or-description ILIKE search. A NULL description never matches ILIKE. -/
def matchesFilter (userId : String) (filter : TaskFilterDto) (t : Task) : Bool :=
  t.userId == userId &&
  (match filter.status with
    | some s => t.status == s
    | none => true) &&
  (match filter.priority with
    | some p => t.priority == p
    | none => true) &&
  (match filter.fromDate with
    | some d => decide (d ≤ t.createdAt)
    | none => true) &&
  (match filter.toDate with
    | some d => decide (t.createdAt ≤ d)
    | none => true) &&
  (match filter.search with
    | some q =>
      (ilike t.title q ||
        (match t.description with
          | some d => ilike d q
          | none => false))
    | none => true)

/-- TasksService.findAll (tasks.service.ts lines 178-225): query-builder
select over the task table restricted to the rows matching the where
clauses, with offset (currentPage - 1) * pageSize and limit pageSize; no
ordering clause is added, so rows come back in table (insertion) order. -/
def findAll (st : SysState) (userId : String) (currentPage pageSize : Nat)
    (filter : TaskFilterDto) : List Task :=
  (((st.store.filter (matchesFilter userId filter)).drop
      ((currentPage - 1) * pageSize)).take pageSize)

/-- An HttpException as the HTTP layer sees it: message and status code. -/
structure HttpError where
  message : String
  statusCode : Nat
  deriving DecidableEq

/-- Body of the delete handler response (controller lines 114-117). -/
structure DeleteResponse where
  statusCode : Nat
  message : String
  deriving DecidableEq

/-- Body of the batch handler response (controller lines 138-142). -/
structure BatchResponse where
  success : Bool
  affected : Nat
  taskIds : List String
  deriving DecidableEq

/-- Array.isArray(result) ? result.length : 0 (controller line 140): bulk
complete yields a task array, bulk delete yields undefined, modelled none. -/
def arrayLengthOrZero : Option (List Task) → Nat
  | some l => l.length
  | none => 0

/-- Message the catch block forwards for a service throw: the
NotFoundException message from tasks.service.ts line 247, or the message of
the error the queue client threw (its exact text is irrelevant here). -/
def svcErrorMessage : SvcError → String
  | SvcError.notFound => "Task not found"
  | SvcError.publishFailure => "Failed to enqueue task status update"

namespace TasksController

/-- TasksController.remove (controller lines 106-118): the guard calls
tasksService.findOne without await, so the tested value is a promise object,
always truthy, and the NotFound branch of the guard is unreachable; the
handler then awaits the service remove and returns 200 with a success
message. A service throw would surface as its own HTTP error. -/
def remove (st : SysState) (id : String) :
    SysState × Except HttpError DeleteResponse :=
  match Scriptassist.remove st id with
  | (st1, Except.ok _) =>
    (st1, Except.ok { statusCode := 200, message := "Task successfully deleted" })
  | (st1, Except.error e) =>
    (st1, Except.error { message := svcErrorMessage e, statusCode := 404 })

/-- TasksController.batchProcess (controller lines 120-149): switch on the
action inside a try block; complete runs bulkUpdateStatus with COMPLETED,
delete runs bulkDelete, any other action throws an HttpException carrying
status 400; the surrounding catch intercepts every throw, including that 400
one, and rethrows its message with status 500 (INTERNAL_SERVER_ERROR). -/
def batchProcess (st : SysState) (taskIds : List String) (action : String)
    (pubFail : Nat → Bool) : SysState × Except HttpError BatchResponse :=
  if action == "complete" then
    match bulkUpdateStatus st taskIds TaskStatus.COMPLETED pubFail with
    | (st1, Except.ok tasks) =>
      (st1, Except.ok
        { success := true
          affected := arrayLengthOrZero (some tasks)
          taskIds := taskIds })
    | (st1, Except.error e) =>
      (st1, Except.error { message := svcErrorMessage e, statusCode := 500 })
  else if action == "delete" then
    match bulkDelete st taskIds with
    | (st1, Except.ok _) =>
      (st1, Except.ok
        { success := true
          affected := arrayLengthOrZero none
          taskIds := taskIds })
    | (st1, Except.error e) =>
      (st1, Except.error { message := svcErrorMessage e, statusCode := 500 })
  else
    (st, Except.error { message := "Unknown action: " ++ action, statusCode := 500 })

end TasksController

/-! Concrete fixtures used by the witnesses and counterexample evaluations. -/

/-- A pending task owned by user u1. -/
def wTask : Task :=
  { id := "a", title := "alpha", description := none,
    status := TaskStatus.PENDING, priority := TaskPriority.LOW,
    dueDate := none, createdAt := 0, userId := "u1" }

/-- A second pending task owned by user u1. -/
def wTask2 : Task :=
  { id := "b", title := "beta", description := some "second",
    status := TaskStatus.PENDING, priority := TaskPriority.HIGH,
    dueDate := some 5, createdAt := 1, userId := "u1" }

/-- A state holding only wTask, with an empty queue. -/
def wState : SysState := { store := [wTask], queue := [] }

/-- A state holding wTask and wTask2, with an empty queue. -/
def wState2 : SysState := { store := [wTask, wTask2], queue := [] }

/-- An update input that only sets the status to COMPLETED. -/
def wStatusDto : UpdateTaskDto :=
  { title := none, description := none, status := some TaskStatus.COMPLETED,
    priority := none, dueDate := none }

/-- A publish schedule on which every enqueue succeeds. -/
def wNoFail : Nat → Bool := fun _ => false

/-- A publish schedule on which the second enqueue of a loop fails. -/
def wFailSecond : Nat → Bool := fun k => k == 1

/-- A filter imposing no constraint beyond the owner. -/
def wNoFilter : TaskFilterDto :=
  { status := none, priority := none, search := none, fromDate := none,
    toDate := none, userId := none }

/-- C1: a create call with a working publisher returns the saved task,
appends exactly that one record to the store, and enqueues exactly one
task-status-update event whose taskId and status match the stored record; a
create call whose enqueue fails is rolled back: the caller sees the failure
and the store holds zero records for the attempt. -/
theorem create_one_record_one_event_or_rollback (st : SysState)
    (dto : CreateTaskDto) (newId : String) (now : Nat) :
    (∃ t : Task,
      (create st dto newId now false).2 = Except.ok t ∧
      (create st dto newId now false).1.store = st.store ++ [t] ∧
      (create st dto newId now false).1.queue =
        st.queue ++ [{ taskId := t.id, status := t.status }]) ∧
    (create st dto newId now true).1.store = st.store ∧
    (create st dto newId now true).2 = Except.error SvcError.publishFailure :=
  ⟨⟨_, rfl, rfl, rfl⟩, rfl, rfl⟩

/-- C2: on an existing task, when the applied input changes the status and
the publish of the status-change event fails, update rolls the store write
back: the entire state, in particular every field of the task, is exactly as
before the call, and the caller sees the publish failure. -/
theorem update_publish_failure_rolls_back (st : SysState) (id : String)
    (dto : UpdateTaskDto) (t : Task) (h : findTask st.store id = some t)
    (hs : t.status ≠ (applyUpdate t dto).status) :
    (update st id dto true).1 = st ∧
    (update st id dto true).2 = Except.error SvcError.publishFailure := by
  simp [update, h, hs]

/-- Witness for C2 at a concrete input: one pending task, an input setting
status to COMPLETED, a failing publisher. -/
theorem update_publish_failure_rolls_back_witness :
    (update wState "a" wStatusDto true).1 = wState ∧
    (update wState "a" wStatusDto true).2 =
      Except.error SvcError.publishFailure :=
  update_publish_failure_rolls_back wState "a" wStatusDto wTask
    (by decide) (by decide)

/-- C3: on an existing task with a working publisher, update enqueues a
status event iff the status after applying the input differs from the status
before the call: an unchanged status enqueues nothing, a changed status
enqueues exactly one event carrying the new status. -/
theorem update_publishes_iff_status_changed (st : SysState) (id : String)
    (dto : UpdateTaskDto) (t : Task) (h : findTask st.store id = some t) :
    ((applyUpdate t dto).status = t.status →
      (update st id dto false).1.queue = st.queue) ∧
    ((applyUpdate t dto).status ≠ t.status →
      (update st id dto false).1.queue =
        st.queue ++ [{ taskId := t.id, status := (applyUpdate t dto).status }]) := by
  constructor
  · intro heq
    simp [update, h, heq]
  · intro hne
    simp [update, h, Ne.symm hne]
    rfl

/-- Witness for C3 at a concrete input: one pending task and an input
setting status to COMPLETED. -/
theorem update_publishes_iff_status_changed_witness :
    ((applyUpdate wTask wStatusDto).status = wTask.status →
      (update wState "a" wStatusDto false).1.queue = wState.queue) ∧
    ((applyUpdate wTask wStatusDto).status ≠ wTask.status →
      (update wState "a" wStatusDto false).1.queue =
        wState.queue ++
          [{ taskId := wTask.id, status := (applyUpdate wTask wStatusDto).status }]) :=
  update_publishes_iff_status_changed wState "a" wStatusDto wTask (by decide)

/-- A publish loop in which every call succeeds finds no failing index. -/
lemma range_find?_none (pubFail : Nat → Bool) (n : Nat)
    (h : ∀ k, pubFail k = false) : (List.range n).find? pubFail = none := by
  rw [List.find?_eq_none]
  intro x _
  simp [h x]

/-- The events of the bulk publish loop: one per store record whose id is
among ids, each carrying the bulk status (the loop reads the status of the
re-read, already updated rows). -/
lemma bulkTargets_events (store : List Task) (ids : List String)
    (s : TaskStatus) :
    (bulkTargets store ids s).map
        (fun t => ({ taskId := t.id, status := t.status } : StatusEvent)) =
      (store.filter (fun t => ids.contains t.id)).map
        (fun t => ({ taskId := t.id, status := s } : StatusEvent)) := by
  induction store with
  | nil => rfl
  | cons a l ih =>
    by_cases hc : a.id ∈ ids
    · simpa [bulkTargets, applyBulkStatus, hc] using ih
    · simpa [bulkTargets, applyBulkStatus, hc] using ih

/-- There are as many bulk targets as store records with a listed id. -/
lemma bulkTargets_length (store : List Task) (ids : List String)
    (s : TaskStatus) :
    (bulkTargets store ids s).length =
      (store.filter (fun t => ids.contains t.id)).length := by
  have h := congrArg List.length (bulkTargets_events store ids s)
  simpa using h

/-- C4: bulkUpdateStatus is all-or-nothing on the store: if any single
enqueue of the per-task publish loop fails, the whole bulk store update is
rolled back and no task status has durably changed. -/
theorem bulkUpdateStatus_all_or_nothing (st : SysState) (ids : List String)
    (status : TaskStatus) (pubFail : Nat → Bool)
    (h : ∃ k, k < (bulkTargets st.store ids status).length ∧ pubFail k = true) :
    (bulkUpdateStatus st ids status pubFail).1.store = st.store ∧
    (bulkUpdateStatus st ids status pubFail).2 =
      Except.error SvcError.publishFailure := by
  obtain ⟨k, hk, hp⟩ := h
  have hsome :
      ((List.range (bulkTargets st.store ids status).length).find? pubFail).isSome := by
    rw [List.find?_isSome]
    exact ⟨k, List.mem_range.mpr hk, hp⟩
  unfold bulkUpdateStatus
  cases hfind :
      (List.range (bulkTargets st.store ids status).length).find? pubFail with
  | none => rw [hfind] at hsome; simp at hsome
  | some j => simp [hfind]

/-- Witness for C4 at a concrete input: two pending tasks, both ids listed,
the second enqueue of the loop failing. -/
theorem bulkUpdateStatus_all_or_nothing_witness :
    (bulkUpdateStatus wState2 ["a", "b"] TaskStatus.COMPLETED wFailSecond).1.store =
      wState2.store ∧
    (bulkUpdateStatus wState2 ["a", "b"] TaskStatus.COMPLETED wFailSecond).2 =
      Except.error SvcError.publishFailure :=
  bulkUpdateStatus_all_or_nothing wState2 ["a", "b"] TaskStatus.COMPLETED
    wFailSecond ⟨1, by decide, by decide⟩

/-- C5: a successful bulkUpdateStatus sets the status on exactly the store
records whose id is listed, leaves every other record untouched, and
enqueues exactly one event carrying the new status per existing listed
record, in store order; listed ids with no backing record are silently
skipped: the call still succeeds and no event is enqueued for them. -/
theorem bulkUpdateStatus_success_effects (st : SysState) (ids : List String)
    (s : TaskStatus) (pubFail : Nat → Bool) (hok : ∀ k, pubFail k = false) :
    (bulkUpdateStatus st ids s pubFail).1.store =
      st.store.map (fun t => if ids.contains t.id then { t with status := s } else t) ∧
    (bulkUpdateStatus st ids s pubFail).1.queue =
      st.queue ++ (st.store.filter (fun t => ids.contains t.id)).map
        (fun t => { taskId := t.id, status := s }) ∧
    (bulkUpdateStatus st ids s pubFail).2 = Except.ok (bulkTargets st.store ids s) := by
  unfold bulkUpdateStatus
  rw [range_find?_none pubFail _ hok]
  refine ⟨rfl, ?_, rfl⟩
  rw [bulkTargets_events]

/-- Witness for C5 at the concrete input of the spec example: a store holding
tasks a and b, the id list [a, x, b] where x has no record, every enqueue
succeeding. -/
theorem bulkUpdateStatus_success_effects_witness :
    (bulkUpdateStatus wState2 ["a", "x", "b"] TaskStatus.COMPLETED wNoFail).1.store =
      wState2.store.map
        (fun t => if (["a", "x", "b"] : List String).contains t.id
          then { t with status := TaskStatus.COMPLETED } else t) ∧
    (bulkUpdateStatus wState2 ["a", "x", "b"] TaskStatus.COMPLETED wNoFail).1.queue =
      wState2.queue ++
        (wState2.store.filter (fun t => (["a", "x", "b"] : List String).contains t.id)).map
          (fun t => { taskId := t.id, status := TaskStatus.COMPLETED }) ∧
    (bulkUpdateStatus wState2 ["a", "x", "b"] TaskStatus.COMPLETED wNoFail).2 =
      Except.ok (bulkTargets wState2.store ["a", "x", "b"] TaskStatus.COMPLETED) :=
  bulkUpdateStatus_success_effects wState2 ["a", "x", "b"] TaskStatus.COMPLETED
    wNoFail (fun _ => rfl)

/-- Offset pagination over a list: with a positive chunk size and enough
chunks to cover the list, concatenating the chunks in order reproduces the
list exactly. -/
lemma flatten_chunks {α : Type} (n : Nat) :
    ∀ (N : Nat) (l : List α), l.length ≤ N * n →
      ((List.range N).map (fun k => (l.drop (k * n)).take n)).flatten = l := by
  intro N
  induction N with
  | zero =>
    intro l hN
    simp only [Nat.zero_mul, Nat.le_zero] at hN
    simp [List.eq_nil_of_length_eq_zero hN]
  | succ N ih =>
    intro l hN
    rw [List.range_succ_eq_map, List.map_cons, List.map_map, List.flatten_cons]
    have hfun : ((fun k => (l.drop (k * n)).take n) ∘ Nat.succ) =
        (fun k => (((l.drop n).drop (k * n)).take n)) := by
      funext k
      simp only [Function.comp_apply]
      rw [Nat.succ_mul, Nat.add_comm (k * n) n, ← List.drop_drop]
    rw [hfun, Nat.zero_mul, List.drop_zero]
    rw [ih (l.drop n) ?hrest]
    · exact List.take_append_drop n l
    case hrest =>
      rw [List.length_drop]
      have h1 : (N + 1) * n = N * n + n := Nat.succ_mul N n
      omega

/-- C6: with a positive page size, the successive pages of findAll, taken
with skip (page - 1) * pageSize and take pageSize from page 1 on, exactly
partition the matching records: their concatenation is precisely the
filtered list, so no record lands on two pages and none is missed; the
matching list is a sublist of the store, so the records keep the store
(creation) order. -/
theorem findAll_pages_partition (st : SysState) (userId : String)
    (filter : TaskFilterDto) (n N : Nat) (_hn : 0 < n)
    (hN : (st.store.filter (matchesFilter userId filter)).length ≤ N * n) :
    ((List.range N).map (fun k => findAll st userId (k + 1) n filter)).flatten =
      st.store.filter (matchesFilter userId filter) ∧
    (st.store.filter (matchesFilter userId filter)).Sublist st.store := by
  constructor
  · have hpage : (fun k => findAll st userId (k + 1) n filter) =
        (fun k =>
          ((st.store.filter (matchesFilter userId filter)).drop (k * n)).take n) := by
      funext k
      simp [findAll]
    rw [hpage]
    exact flatten_chunks n N _ hN
  · exact List.filter_sublist st.store

/-- Witness for C6 at a concrete input: two matching tasks, page size 1,
two pages. -/
theorem findAll_pages_partition_witness :
    ((List.range 2).map (fun k => findAll wState2 "u1" (k + 1) 1 wNoFilter)).flatten =
      wState2.store.filter (matchesFilter "u1" wNoFilter) ∧
    (wState2.store.filter (matchesFilter "u1" wNoFilter)).Sublist wState2.store :=
  findAll_pages_partition wState2 "u1" wNoFilter 1 2 (by decide) (by decide)

/-- C7 evaluation: the delete endpoint is not NotFound-reporting. Starting
from a store holding only task a, the first delete of a returns 200 and
removes the record, and the second delete of the same id still returns 200
success instead of a NotFound error: the service remove deletes by criteria
without an existence check, and the controller guard tests an unawaited
promise, so its NotFound branch never fires. -/
theorem remove_twice_second_call_still_succeeds :
    (TasksController.remove wState "a").2 =
      Except.ok { statusCode := 200, message := "Task successfully deleted" } ∧
    findTask ((TasksController.remove wState "a").1).store "a" = none ∧
    (TasksController.remove ((TasksController.remove wState "a").1) "a").2 =
      Except.ok { statusCode := 200, message := "Task successfully deleted" } :=
  ⟨rfl, rfl, rfl⟩

/-- C8 evaluation: an unknown batch action does not surface as 400. The
default branch throws an HttpException carrying status 400, but the
surrounding catch intercepts it and rethrows its message with status 500;
the state is untouched. -/
theorem batchProcess_unknown_action_surfaces_500 :
    (TasksController.batchProcess wState ["a"] "archive" wNoFail).2 =
      Except.error { message := "Unknown action: archive", statusCode := 500 } ∧
    (TasksController.batchProcess wState ["a"] "archive" wNoFail).1 = wState :=
  ⟨rfl, rfl⟩

/-- A found task has the id it was looked up by. -/
lemma findTask_id (store : List Task) (id : String) (t : Task)
    (h : findTask store id = some t) : t.id = id := by
  have hp := List.find?_some h
  exact eq_of_beq hp

/-- Saving a row whose id is the looked-up id makes the lookup return
exactly that row. -/
lemma findTask_saveTask (store : List Task) (id : String) (u : Task)
    (hex : (findTask store id).isSome) (hid : u.id = id) :
    findTask (saveTask store u) id = some u := by
  induction store with
  | nil => simp [findTask] at hex
  | cons a l ih =>
    by_cases ha : (a.id == id) = true
    · have hhead : (a.id == u.id) = true := by
        rw [hid]
        exact ha
      unfold saveTask findTask
      rw [List.map_cons, if_pos hhead]
      exact List.find?_cons_of_pos _ (by simp [hid])
    · have hhead : ¬ (a.id == u.id) = true := by
        rw [hid]
        exact ha
      have hex2 : (findTask l id).isSome := by
        unfold findTask at hex
        rw [List.find?_cons_of_neg] at hex
        · exact hex
        · simpa using ha
      unfold saveTask findTask
      rw [List.map_cons, if_neg hhead, List.find?_cons_of_neg]
      · exact ih hex2
      · simpa using ha

/-- C9: update has field-level replace semantics. On an existing task, the
successful call returns and stores the task with every field present in the
input overwritten by the input value, every field absent from the input kept
exactly as before the call, and id, createdAt and the owning user untouched. -/
theorem update_partial_replace (st : SysState) (id : String)
    (dto : UpdateTaskDto) (t : Task) (h : findTask st.store id = some t) :
    (update st id dto false).2 = Except.ok (applyUpdate t dto) ∧
    findTask (update st id dto false).1.store id = some (applyUpdate t dto) ∧
    (applyUpdate t dto).id = t.id ∧
    (applyUpdate t dto).createdAt = t.createdAt ∧
    (applyUpdate t dto).userId = t.userId ∧
    (dto.title = none → (applyUpdate t dto).title = t.title) ∧
    (∀ v, dto.title = some v → (applyUpdate t dto).title = v) ∧
    (dto.description = none → (applyUpdate t dto).description = t.description) ∧
    (∀ v, dto.description = some v → (applyUpdate t dto).description = some v) ∧
    (dto.status = none → (applyUpdate t dto).status = t.status) ∧
    (∀ v, dto.status = some v → (applyUpdate t dto).status = v) ∧
    (dto.priority = none → (applyUpdate t dto).priority = t.priority) ∧
    (∀ v, dto.priority = some v → (applyUpdate t dto).priority = v) ∧
    (dto.dueDate = none → (applyUpdate t dto).dueDate = t.dueDate) ∧
    (∀ v, dto.dueDate = some v → (applyUpdate t dto).dueDate = some v) := by
  have h1 : (update st id dto false).2 = Except.ok (applyUpdate t dto) ∧
      (update st id dto false).1.store = saveTask st.store (applyUpdate t dto) := by
    by_cases hc : t.status ≠ (applyUpdate t dto).status
    · constructor <;> simp [update, h, hc]
    · constructor <;> simp [update, h, hc]
  refine ⟨h1.1, ?_, rfl, rfl, rfl, ?_, ?_, ?_, ?_, ?_, ?_, ?_, ?_, ?_, ?_⟩
  · rw [h1.2]
    exact findTask_saveTask st.store id (applyUpdate t dto)
      (by rw [h]; rfl) (findTask_id st.store id t h)
  · intro hn
    simp [applyUpdate, hn]
  · intro v hv
    simp [applyUpdate, hv]
  · intro hn
    simp [applyUpdate, hn]
  · intro v hv
    simp [applyUpdate, hv]
  · intro hn
    simp [applyUpdate, hn]
  · intro v hv
    simp [applyUpdate, hv]
  · intro hn
    simp [applyUpdate, hn]
  · intro v hv
    simp [applyUpdate, hv]
  · intro hn
    simp [applyUpdate, hn]
  · intro v hv
    simp [applyUpdate, hv]

/-- Witness for C9 at a concrete input: one pending task and an input
setting only the status. -/
theorem update_partial_replace_witness :
    (update wState "a" wStatusDto false).2 =
      Except.ok (applyUpdate wTask wStatusDto) :=
  (update_partial_replace wState "a" wStatusDto wTask (by decide)).1

/-- C10: the batch endpoint reports affected = 0 on every delete action,
however many tasks were actually deleted, because bulkDelete returns no
collection (Array.isArray on undefined is false); the complete action, by
contrast, reports the number of store records whose id was listed. -/
theorem batchProcess_delete_affected_always_zero (st : SysState)
    (ids : List String) (pubFail : Nat → Bool) :
    (TasksController.batchProcess st ids "delete" pubFail).2 =
      Except.ok { success := true, affected := 0, taskIds := ids } ∧
    (TasksController.batchProcess st ids "delete" pubFail).1.store =
      st.store.filter (fun t => !(ids.contains t.id)) ∧
    (TasksController.batchProcess st ids "complete" wNoFail).2 =
      Except.ok
        { success := true
          affected := (st.store.filter (fun t => ids.contains t.id)).length
          taskIds := ids } := by
  have hd1 : (("delete" : String) == "complete") = false := rfl
  have hd2 : (("delete" : String) == "delete") = true := rfl
  have hc1 : (("complete" : String) == "complete") = true := rfl
  have hnone : ∀ n, (List.range n).find? wNoFail = none :=
    fun n => range_find?_none wNoFail n (fun _ => rfl)
  refine ⟨?_, ?_, ?_⟩
  · simp [TasksController.batchProcess, bulkDelete, arrayLengthOrZero, hd1, hd2]
  · simp [TasksController.batchProcess, bulkDelete, hd1, hd2]
  · simp [TasksController.batchProcess, bulkUpdateStatus, hnone, hc1,
      arrayLengthOrZero, bulkTargets_length]

end Scriptassist
